import Mathlib

/-!
# hello_c.c : an allocating formatter and its caller

Shallow embedding of `haskell_ffi/code/haskell_ffi/hello_c.c`.

The C program is stateful (heap, standard output), so every C function is a
function from a machine state to either a fault or a result paired with the
next state.  The memory model is block based: a pointer names a whole block,
`0` is `NULL`, and a block holds the characters stored in it.  The three C
library routines the program calls (`asprintf`, `printf`, `free`) are given
the behaviour they have in a build with gcc and the GNU C library, which the
source selects with `_GNU_SOURCE`.  The two formatting calls differ on a null
`%s` argument, which C leaves undefined: `asprintf` runs the library's
formatter, which writes `(null)`; the statement `printf("%s\n", s)` is
compiled to `puts(s)`, which reads through the pointer and faults.
-/

namespace HelloC

/-! ## Data model -/

/-- A pointer is the identifier of a memory block; `0` is the null pointer. -/
abbrev Ptr := Nat

/-- The null pointer of C. -/
def NULL : Ptr := 0

/-- The string terminator of C. -/
def NUL : Char := Char.ofNat 0

/-- Value of the macro `EXIT_SUCCESS` of `stdlib.h`. -/
def EXIT_SUCCESS : Int := 0

/-- One block of memory: its address, the characters it stores (terminator
included) and whether it came from the allocator (`true`) or is static
storage such as a string literal (`false`). -/
structure Block where
  addr : Ptr
  bytes : List Char
  heap : Bool
  deriving DecidableEq, Repr

/-- What the run-time records, in program order: allocator activity and the
library calls that consume a pointer. -/
inductive Event where
  /-- the allocator handed out block `p` of `size` characters -/
  | alloc (p : Ptr) (size : Nat)
  /-- the allocator refused a request -/
  | allocFail
  /-- the call of `printf` with these pointers as its variadic arguments -/
  | printf (args : List Ptr)
  /-- the call `free p` -/
  | free (p : Ptr)
  deriving DecidableEq, Repr

/-- Ways in which the C program can leave defined behaviour. -/
inductive Fault where
  /-- a string was read through a pointer that names no live terminated block -/
  | badPointer (p : Ptr)
  /-- the release of a non-null pointer that is not a live heap block -/
  | badFree (p : Ptr)
  /-- a conversion without argument, or one this model does not know -/
  | badFormat
  deriving DecidableEq, Repr

/-- The machine state: the live blocks, the answers the allocator will give
to the coming requests (`true` = the request is granted; once the list is
used up every request is refused), the characters written to standard
output so far, and the event trace. -/
structure State where
  mem : List Block
  oracle : List Bool
  out : List Char
  trace : List Event
  deriving DecidableEq, Repr

/-- The block a pointer names, if it is live. -/
def State.block? (σ : State) (p : Ptr) : Option Block :=
  σ.mem.find? (fun b => b.addr == p)

/-- The C string stored in a list of characters: everything before the first
terminator; nothing when there is no terminator at all. -/
def cstr (bytes : List Char) : Option (List Char) :=
  if NUL ∈ bytes then some (bytes.takeWhile (fun c => c != NUL)) else none

/-- The C string a pointer designates in a state: defined when the pointer is
non-null and names a live block that holds a terminator. -/
def State.cstrAt (σ : State) (p : Ptr) : Option (List Char) :=
  if p = NULL then none else (σ.block? p).bind (fun b => cstr b.bytes)

/-- An address that no live block uses: one more than the largest in use. -/
def State.fresh (σ : State) : Ptr :=
  (σ.mem.map Block.addr).foldr max 0 + 1

/-- The heap blocks that are live in a state. -/
def State.liveHeap (σ : State) : List Block :=
  σ.mem.filter (fun b => b.heap)

/-! ## The C library -/

/-- What the formatter of the GNU C library writes for a null `%s` argument. -/
def nullText : List Char := "(null)".toList

/-- The characters a `%s` conversion emits for the argument `p`.  A null
argument is undefined in C; `nullOk` says what the calling routine does with
it: `true`, it is rendered as `nullText`; `false`, the routine reads through
the pointer, which is a fault. -/
def strArg (nullOk : Bool) (σ : State) (p : Ptr) : Except Fault (List Char) :=
  if p = NULL then (if nullOk then .ok nullText else .error (.badPointer p))
  else match σ.cstrAt p with
    | some s => .ok s
    | none => .error (.badPointer p)

/-- The formatting engine shared by `printf` and `asprintf`, for the
conversions `%s` and `%%`.  It scans the format once; the characters an
argument contributes are emitted as they are and never scanned. -/
def vformat (nullOk : Bool) (σ : State) : List Char → List Ptr → Except Fault (List Char)
  | [], _ => .ok []
  | '%' :: 's' :: fmt, a :: args =>
      match strArg nullOk σ a, vformat nullOk σ fmt args with
      | .ok s, .ok rest => .ok (s ++ rest)
      | .error e, _ => .error e
      | _, .error e => .error e
  | '%' :: 's' :: _, [] => .error .badFormat
  | '%' :: '%' :: fmt, args =>
      match vformat nullOk σ fmt args with
      | .ok rest => .ok ('%' :: rest)
      | .error e => .error e
  | '%' :: _, _ => .error .badFormat
  | c :: fmt, args =>
      match vformat nullOk σ fmt args with
      | .ok rest => .ok (c :: rest)
      | .error e => .error e

/-- The call `asprintf(strp, fmt, ...)`; `cell` is the value `*strp` has
before the call.  The result is the `int` returned and the value of `*strp`
after the call.  When the allocator grants the request, a new heap block
holds the formatted text and its terminator; when it refuses (for whatever
reason the library has: no memory, a result too long), `-1` is returned and
`*strp` keeps the value it had.  A null `%s` argument is rendered as
`nullText`. -/
def asprintf (σ : State) (cell : Ptr) (fmt : List Char) (args : List Ptr) :
    Except Fault ((Int × Ptr) × State) :=
  match vformat true σ fmt args with
  | .error e => .error e
  | .ok text =>
    if σ.oracle.headD false then
      .ok ((text.length, σ.fresh),
        { σ with
          mem := ⟨σ.fresh, text ++ [NUL], true⟩ :: σ.mem
          oracle := σ.oracle.tail
          trace := σ.trace ++ [.alloc σ.fresh (text.length + 1)] })
    else
      .ok ((-1, cell),
        { σ with oracle := σ.oracle.tail, trace := σ.trace ++ [.allocFail] })

/-- The call `printf(fmt, ...)` as the program performs it: the formatted
text is appended to standard output; the result is the number of characters
written.  A null `%s` argument is undefined in C and is a fault here: gcc
compiles the statement `printf("%s\n", s)` of the source to `puts(s)`, which
reads through `s`; nothing is written and the call does not return. -/
def printf (σ : State) (fmt : List Char) (args : List Ptr) :
    Except Fault (Int × State) :=
  match vformat false σ fmt args with
  | .error e => .error e
  | .ok text =>
    .ok (text.length, { σ with out := σ.out ++ text, trace := σ.trace ++ [.printf args] })

/-- The call `free(p)`: nothing happens for `NULL`; a live heap block is
released; anything else is a fault. -/
def free (σ : State) (p : Ptr) : Except Fault (Unit × State) :=
  if p = NULL then .ok ((), { σ with trace := σ.trace ++ [.free p] })
  else match σ.block? p with
    | some b =>
      if b.heap then
        .ok ((), { σ with
          mem := σ.mem.filter (fun b => b.addr != p)
          trace := σ.trace ++ [.free p] })
      else .error (.badFree p)
    | none => .error (.badFree p)

/-! ## The program -/

/-- The string literal `"Hello, %s"`. -/
def helloFmt : List Char := "Hello, %s".toList

/-- The string literal `"%s\n"`. -/
def lineFmt : List Char := "%s\n".toList

/-- The characters of the string literal `"world"`. -/
def world : List Char := "world".toList

/-- The address of the string literal `"world"` in static storage. -/
def worldLit : Ptr := 1

/-- The function `generate_message` of the source:
`char* s = NULL; asprintf(&s, "Hello, %s", name); return s;`
The `int` that `asprintf` returns is dropped, as in the source. -/
def generate_message (σ : State) (name : Ptr) : Except Fault (Ptr × State) :=
  let s : Ptr := NULL
  match asprintf σ s helloFmt [name] with
  | .error e => .error e
  | .ok ((_, s), σ) => .ok (s, σ)

/-- The function `main` of the source:
`char* s = generate_message("world"); printf("%s\n",s); free(s); return EXIT_SUCCESS;`
`argc` and `argv` are not used by the source. -/
def main (_argc : Int) (_argv : List (List Char)) (σ : State) : Except Fault (Int × State) :=
  match generate_message σ worldLit with
  | .error e => .error e
  | .ok (s, σ) =>
    match printf σ lineFmt [s] with
    | .error e => .error e
    | .ok (_, σ) =>
      match free σ s with
      | .error e => .error e
      | .ok (_, σ) => .ok (EXIT_SUCCESS, σ)

/-- The state in which the program starts: static storage holds the string
literal `"world"`, nothing has been allocated or written, and `oracle` is
what the allocator will answer. -/
def boot (oracle : List Bool) : State :=
  { mem := [⟨worldLit, world ++ [NUL], false⟩], oracle := oracle, out := [], trace := [] }

/-- The text that a run of `generate_message` hands to its caller: the C
string at the returned pointer in the state after the call; nothing when
the call faults or returns a pointer that designates no string. -/
def message? (σ : State) (name : Ptr) : Option (List Char) :=
  match generate_message σ name with
  | .error _ => none
  | .ok (r, σ') => σ'.cstrAt r

/-- The characters of `"Hello, "`. -/
def hello : List Char := "Hello, ".toList

/-- A state whose static storage holds one string literal, `text`, at the
address `worldLit`; `boot` is the instance for `"world"`. -/
def litState (text : List Char) (oracle : List Bool) : State :=
  { mem := [⟨worldLit, text ++ [NUL], false⟩], oracle := oracle, out := [], trace := [] }

/-! ## Reading an allocation trace -/

/-- The pointers a trace allocates, in order. -/
def allocated : List Event → List Ptr
  | [] => []
  | .alloc p _ :: tr => p :: allocated tr
  | _ :: tr => allocated tr

/-- An allocation-tracking harness.  It replays a trace with the blocks
`owned` (allocated, not yet released) and `gone` (released); the result is
the list of blocks still owned at the end, or nothing when the trace
releases a block that is not owned (a double or foreign release), prints
through a released block, or allocates an address that is still owned. -/
def replay (owned gone : List Ptr) : List Event → Option (List Ptr)
  | [] => some owned
  | .alloc p _ :: tr =>
      if p ∈ owned then none else replay (p :: owned) (gone.erase p) tr
  | .allocFail :: tr => replay owned gone tr
  | .printf args :: tr =>
      if args.any (fun a => decide (a ∈ gone)) then none else replay owned gone tr
  | .free p :: tr =>
      if p = NULL then replay owned gone tr
      else if p ∈ owned then replay (owned.erase p) (p :: gone) tr
      else none

/-! ## Lemmas on C strings and formatting -/

theorem helloFmt_eq : helloFmt = hello ++ ['%', 's'] := rfl

theorem hello_eq : hello = ['H', 'e', 'l', 'l', 'o', ',', ' '] := rfl

theorem hello_nul_free : NUL ∉ hello := by decide

theorem vformat_helloFmt (σ : State) (a : Ptr) (t : List Char) (h : strArg true σ a = .ok t) :
    vformat true σ helloFmt [a] = .ok (hello ++ t) := by
  rw [helloFmt_eq, hello_eq]
  simp [vformat, h]

theorem takeWhile_append_NUL (t : List Char) (h : NUL ∉ t) :
    (t ++ [NUL]).takeWhile (fun c => c != NUL) = t := by
  induction t with
  | nil => simp
  | cons c t ih =>
    simp only [List.mem_cons, not_or] at h
    have hc : (c != NUL) = true := by simpa [bne_iff_ne] using fun e => h.1 e.symm
    simp [List.takeWhile, hc, ih h.2]

theorem cstr_append_NUL (t : List Char) (h : NUL ∉ t) : cstr (t ++ [NUL]) = some t := by
  simp [cstr, takeWhile_append_NUL t h]

theorem cstr_nul_free (bytes s : List Char) (h : cstr bytes = some s) : NUL ∉ s := by
  unfold cstr at h
  split at h
  · simp only [Option.some.injEq] at h
    subst h
    intro hm
    have := List.mem_takeWhile_imp hm
    simp at this
  · simp at h

theorem cstrAt_nul_free (σ : State) (p : Ptr) (s : List Char) (h : σ.cstrAt p = some s) :
    NUL ∉ s := by
  unfold State.cstrAt at h
  split at h
  · simp at h
  · cases hb : σ.block? p with
    | none => simp [hb] at h
    | some b =>
      simp only [hb, Option.some_bind] at h
      exact cstr_nul_free _ _ h

theorem cstrAt_ne_NULL (σ : State) (p : Ptr) (s : List Char) (h : σ.cstrAt p = some s) :
    p ≠ NULL := by
  intro e
  simp [State.cstrAt, e] at h

theorem hello_append_nul_free (σ : State) (p : Ptr) (s : List Char)
    (h : σ.cstrAt p = some s) : NUL ∉ hello ++ s := by
  simp only [List.mem_append, not_or]
  exact ⟨hello_nul_free, cstrAt_nul_free σ p s h⟩

theorem strArg_of_cstrAt (σ : State) (p : Ptr) (s : List Char) (h : σ.cstrAt p = some s) :
    strArg true σ p = .ok s := by
  simp [strArg, cstrAt_ne_NULL σ p s h, h]

theorem strArg_NULL (σ : State) : strArg true σ NULL = .ok nullText := by
  simp [strArg]

/-! ## Lemmas on the allocator -/

theorem addr_lt_fresh (σ : State) (b : Block) (h : b ∈ σ.mem) : b.addr < σ.fresh := by
  unfold State.fresh
  have key : ∀ l : List Block, b ∈ l → b.addr ≤ (l.map Block.addr).foldr max 0 := by
    intro l
    induction l with
    | nil => intro hb; simp at hb
    | cons x l ih =>
      intro hb
      simp only [List.map_cons, List.foldr_cons]
      rcases List.mem_cons.mp hb with e | hl
      · subst e; exact le_max_left _ _
      · exact le_trans (ih hl) (le_max_right _ _)
  exact Nat.lt_succ_of_le (key _ h)

theorem fresh_ne_NULL (σ : State) : σ.fresh ≠ NULL := by
  simp [State.fresh, NULL]

theorem block?_fresh (σ : State) : σ.block? σ.fresh = none := by
  unfold State.block?
  rw [List.find?_eq_none]
  intro b hb
  have := addr_lt_fresh σ b hb
  simp only [beq_iff_eq, Bool.not_eq_true, beq_eq_false_iff_ne, ne_eq]
  exact Nat.ne_of_lt this

theorem cstrAt_ne_fresh (σ : State) (p : Ptr) (s : List Char) (h : σ.cstrAt p = some s) :
    p ≠ σ.fresh := by
  intro e
  subst e
  simp [State.cstrAt, block?_fresh] at h

theorem cstrAt_cons_self (σ : State) (p : Ptr) (t : List Char) (hp : p ≠ NULL) (h : NUL ∉ t)
    (o : List Bool) (tr : List Event) :
    State.cstrAt { σ with mem := ⟨p, t ++ [NUL], true⟩ :: σ.mem, oracle := o, trace := tr } p
      = some t := by
  simp [State.cstrAt, hp, State.block?, cstr_append_NUL t h]

theorem cstrAt_cons_other (σ : State) (p q : Ptr) (bytes : List Char) (hq : q ≠ p)
    (o : List Bool) (tr : List Event) :
    State.cstrAt { σ with mem := ⟨p, bytes, true⟩ :: σ.mem, oracle := o, trace := tr } q
      = σ.cstrAt q := by
  have hpq : (p == q) = false := by simpa using fun e => hq e.symm
  simp [State.cstrAt, State.block?, List.find?, hpq]

/-! ## The two outcomes of `generate_message` -/

/-- When the argument renders as `t` and the allocator grants the request,
`generate_message` returns the fresh address, and the only changes to the
state are the new block, the consumed answer and one trace entry. -/
theorem generate_message_granted (σ : State) (name : Ptr) (t : List Char)
    (ht : strArg true σ name = .ok t) (ha : σ.oracle.headD false = true) :
    generate_message σ name = .ok (σ.fresh,
      { σ with
        mem := ⟨σ.fresh, hello ++ t ++ [NUL], true⟩ :: σ.mem
        oracle := σ.oracle.tail
        trace := σ.trace ++ [.alloc σ.fresh ((hello ++ t).length + 1)] }) := by
  unfold generate_message asprintf
  rw [vformat_helloFmt σ name t ht]
  simp only [ha]
  simp

/-- When the allocator refuses, `generate_message` returns the `NULL` its
local was initialised with and leaves memory as it was. -/
theorem generate_message_refused (σ : State) (name : Ptr) (t : List Char)
    (ht : strArg true σ name = .ok t) (ha : σ.oracle.headD false = false) :
    generate_message σ name = .ok (NULL,
      { σ with oracle := σ.oracle.tail, trace := σ.trace ++ [.allocFail] }) := by
  unfold generate_message asprintf
  rw [vformat_helloFmt σ name t ht]
  simp only [ha]
  simp

theorem message?_granted (σ : State) (name : Ptr) (s : List Char)
    (hs : σ.cstrAt name = some s) (ha : σ.oracle.headD false = true) :
    message? σ name = some (hello ++ s) := by
  unfold message?
  rw [generate_message_granted σ name s (strArg_of_cstrAt σ name s hs) ha]
  exact cstrAt_cons_self σ σ.fresh (hello ++ s) (fresh_ne_NULL σ)
    (hello_append_nul_free σ name s hs) _ _

/-- Whatever the state, the only code `main` can return is `EXIT_SUCCESS`. -/
theorem main_code (argc : Int) (argv : List (List Char)) (σ σ' : State) (code : Int)
    (h : main argc argv σ = .ok (code, σ')) : code = EXIT_SUCCESS := by
  unfold main at h
  split at h
  · simp at h
  · split at h
    · simp at h
    · split at h
      · simp at h
      · simp only [Except.ok.injEq, Prod.mk.injEq] at h
        exact h.1.symm

/-! ## The claims -/

/-- C1: for every valid input string `s` (the pointer `name` is non-null and
designates the terminated string `s`), when the allocation succeeds
`generate_message` returns a non-null pointer to a new heap block that
stores exactly `"Hello, "` followed by `s` and the terminator, so the
string read back is `"Hello, " ++ s`.  `s` is arbitrary: conversions
inside it are copied, not interpreted. -/
theorem generate_message_hello_name (σ : State) (name : Ptr) (s : List Char)
    (hs : σ.cstrAt name = some s) (ha : σ.oracle.headD false = true) :
    ∃ r σ', generate_message σ name = .ok (r, σ') ∧ r ≠ NULL ∧
      σ'.block? r = some ⟨r, "Hello, ".toList ++ s ++ [NUL], true⟩ ∧
      σ'.cstrAt r = some ("Hello, ".toList ++ s) := by
  refine ⟨_, _, generate_message_granted σ name s (strArg_of_cstrAt σ name s hs) ha,
    fresh_ne_NULL σ, ?_, ?_⟩
  · simp [State.block?, hello]
  · exact cstrAt_cons_self σ σ.fresh (hello ++ s) (fresh_ne_NULL σ)
      (hello_append_nul_free σ name s hs) _ _

/-- C1 at the input `"%s"`: the result is `"Hello, %s"`. -/
theorem generate_message_hello_name_witness :
    (litState "%s".toList [true]).cstrAt worldLit = some "%s".toList ∧
    (litState "%s".toList [true]).oracle.headD false = true ∧
    ∃ r σ', generate_message (litState "%s".toList [true]) worldLit = .ok (r, σ') ∧ r ≠ NULL ∧
      σ'.block? r = some ⟨r, "Hello, ".toList ++ "%s".toList ++ [NUL], true⟩ ∧
      σ'.cstrAt r = some ("Hello, ".toList ++ "%s".toList) :=
  ⟨rfl, rfl,
    generate_message_hello_name (litState "%s".toList [true]) worldLit "%s".toList rfl rfl⟩

/-- C2: a run of `main` whose allocation is granted calls `generate_message`
on the literal `"world"`, which returns `"Hello, world"`; standard output
receives exactly `"Hello, world"` and one newline; `main` returns
`EXIT_SUCCESS`, which is `0`. -/
theorem main_world_output (argc : Int) (argv : List (List Char)) (rest : List Bool) :
    (boot (true :: rest)).cstrAt worldLit = some "world".toList ∧
    ∃ r σ₁ σ', generate_message (boot (true :: rest)) worldLit = .ok (r, σ₁) ∧
      σ₁.cstrAt r = some "Hello, world".toList ∧
      main argc argv (boot (true :: rest)) = .ok (EXIT_SUCCESS, σ') ∧
      σ'.out = "Hello, world\n".toList ∧
      EXIT_SUCCESS = 0 :=
  ⟨rfl, 2, _, _, rfl, rfl, rfl, rfl, rfl⟩

/-- C3: for the empty input string, when the allocation succeeds,
`generate_message` returns a non-null pointer to the string `"Hello, "`,
which has 7 characters, ends in the space and is not empty. -/
theorem generate_message_empty_name (σ : State) (name : Ptr)
    (hs : σ.cstrAt name = some []) (ha : σ.oracle.headD false = true) :
    ∃ r σ' t, generate_message σ name = .ok (r, σ') ∧ r ≠ NULL ∧
      σ'.cstrAt r = some t ∧ t = "Hello, ".toList ∧ t.length = 7 ∧
      t.getLast? = some ' ' ∧ t ≠ [] := by
  refine ⟨_, _, "Hello, ".toList,
    generate_message_granted σ name [] (strArg_of_cstrAt σ name [] hs) ha,
    fresh_ne_NULL σ, ?_, rfl, rfl, rfl, by decide⟩
  have := cstrAt_cons_self σ σ.fresh (hello ++ []) (fresh_ne_NULL σ)
    (hello_append_nul_free σ name [] hs) σ.oracle.tail
    (σ.trace ++ [.alloc σ.fresh ((hello ++ []).length + 1)])
  simpa [hello] using this

/-- C3 at a state whose literal is the empty string. -/
theorem generate_message_empty_name_witness :
    (litState [] [true]).cstrAt worldLit = some [] ∧
    (litState [] [true]).oracle.headD false = true ∧
    ∃ r σ' t, generate_message (litState [] [true]) worldLit = .ok (r, σ') ∧ r ≠ NULL ∧
      σ'.cstrAt r = some t ∧ t = "Hello, ".toList ∧ t.length = 7 ∧
      t.getLast? = some ' ' ∧ t ≠ [] :=
  ⟨rfl, rfl, generate_message_empty_name (litState [] [true]) worldLit rfl rfl⟩

/-- C4: for every valid input string `s` and whatever the allocator answers,
`generate_message` returns without fault and one of two things holds.
Either the result is non-null, the string at it is `"Hello, " ++ s`, and
memory gained exactly the one heap block that holds it; or the result is
`NULL`, memory is what it was (no allocation escapes) and the trace
records the refusal.  There is no third outcome. -/
theorem generate_message_atomic (σ : State) (name : Ptr) (s : List Char)
    (hs : σ.cstrAt name = some s) :
    ∃ r σ', generate_message σ name = .ok (r, σ') ∧
      ((r ≠ NULL ∧ σ'.cstrAt r = some ("Hello, ".toList ++ s) ∧
          σ'.mem = ⟨r, "Hello, ".toList ++ s ++ [NUL], true⟩ :: σ.mem ∧
          σ'.trace = σ.trace ++ [.alloc r (("Hello, ".toList ++ s).length + 1)]) ∨
       (r = NULL ∧ σ'.mem = σ.mem ∧ σ'.trace = σ.trace ++ [.allocFail])) := by
  have ht := strArg_of_cstrAt σ name s hs
  cases ha : σ.oracle.headD false with
  | true =>
    exact ⟨_, _, generate_message_granted σ name s ht ha, Or.inl
      ⟨fresh_ne_NULL σ,
        cstrAt_cons_self σ σ.fresh (hello ++ s) (fresh_ne_NULL σ)
          (hello_append_nul_free σ name s hs) _ _, rfl, rfl⟩⟩
  | false =>
    exact ⟨_, _, generate_message_refused σ name s ht ha, Or.inr ⟨rfl, rfl, rfl⟩⟩

/-- C4 at the start state of the program with an allocator that refuses. -/
theorem generate_message_atomic_witness :
    (boot [false]).cstrAt worldLit = some world ∧
    ∃ r σ', generate_message (boot [false]) worldLit = .ok (r, σ') ∧
      ((r ≠ NULL ∧ σ'.cstrAt r = some ("Hello, ".toList ++ world) ∧
          σ'.mem = ⟨r, "Hello, ".toList ++ world ++ [NUL], true⟩ :: (boot [false]).mem ∧
          σ'.trace
            = (boot [false]).trace ++ [.alloc r (("Hello, ".toList ++ world).length + 1)]) ∨
       (r = NULL ∧ σ'.mem = (boot [false]).mem ∧
          σ'.trace = (boot [false]).trace ++ [.allocFail])) :=
  ⟨rfl, generate_message_atomic (boot [false]) worldLit world rfl⟩

/-- C5, as stated, fails: in the run of `main` whose allocation is refused,
the null handle does reach a downstream use.  `generate_message` returns
`NULL`, `main` hands it to `printf`, and that call is the fault in which the
run ends. -/
theorem main_alloc_failure_counterexample :
    ∃ σ₁, generate_message (boot [false]) worldLit = .ok (NULL, σ₁) ∧
      printf σ₁ lineFmt [NULL] = .error (.badPointer NULL) ∧
      main 0 [] (boot [false]) = .error (.badPointer NULL) :=
  ⟨_, rfl, rfl, rfl⟩

/-- C5, amended: when the allocation inside `generate_message` is refused
during a run of `main`, `generate_message` returns `NULL` and leaves memory
as it was; `main` does not test the result and passes that `NULL` to
`printf`, where the run faults.  Nothing has been written to standard
output, nothing is allocated, and `main` does not return: neither `free`
nor `return EXIT_SUCCESS` is reached. -/
theorem main_alloc_failure (argc : Int) (argv : List (List Char)) (oracle : List Bool)
    (ha : oracle.headD false = false) :
    ∃ σ₁, generate_message (boot oracle) worldLit = .ok (NULL, σ₁) ∧
      σ₁ = { boot oracle with oracle := oracle.tail, trace := [.allocFail] } ∧
      σ₁.out = [] ∧ σ₁.liveHeap = [] ∧
      printf σ₁ lineFmt [NULL] = .error (.badPointer NULL) ∧
      main argc argv (boot oracle) = .error (.badPointer NULL) ∧
      ∀ code σ', main argc argv (boot oracle) ≠ .ok (code, σ') := by
  match oracle, ha with
  | [], _ => exact ⟨_, rfl, rfl, rfl, rfl, rfl, rfl, fun _ _ h => by cases h⟩
  | false :: rest, _ => exact ⟨_, rfl, rfl, rfl, rfl, rfl, rfl, fun _ _ h => by cases h⟩

/-- C5, amended, at the allocator that refuses its first request. -/
theorem main_alloc_failure_witness :
    [false].headD false = false ∧
    ∃ σ₁, generate_message (boot [false]) worldLit = .ok (NULL, σ₁) ∧
      σ₁ = { boot [false] with oracle := [false].tail, trace := [.allocFail] } ∧
      σ₁.out = [] ∧ σ₁.liveHeap = [] ∧
      printf σ₁ lineFmt [NULL] = .error (.badPointer NULL) ∧
      main 0 [] (boot [false]) = .error (.badPointer NULL) ∧
      ∀ code σ', main 0 [] (boot [false]) ≠ .ok (code, σ') :=
  ⟨rfl, main_alloc_failure 0 [] [false] rfl⟩

/-- C6, as stated, fails: called with `NULL` and a granting allocator,
`generate_message` neither faults nor returns `NULL`; it returns a new
string, `"Hello, (null)"`. -/
theorem generate_message_null_name_counterexample :
    ∃ r σ', generate_message (boot [true]) NULL = .ok (r, σ') ∧ r ≠ NULL ∧
      σ'.cstrAt r = some "Hello, (null)".toList :=
  ⟨2, _, rfl, by decide, rfl⟩

/-- C6, amended: `generate_message` does not test its argument.  Called with
`NULL` it never faults: when the allocation is granted it returns a new
string, `"Hello, (null)"`, at the fresh address; when the allocation is
refused it returns `NULL`, as it does for any other input. -/
theorem generate_message_null_name (σ : State) :
    ∃ r σ', generate_message σ NULL = .ok (r, σ') ∧
      r = (if σ.oracle.headD false then σ.fresh else NULL) ∧
      σ'.cstrAt r = (if σ.oracle.headD false then some "Hello, (null)".toList else none) := by
  cases ha : σ.oracle.headD false with
  | true =>
    refine ⟨_, _, generate_message_granted σ NULL nullText (strArg_NULL σ) ha, by simp, ?_⟩
    have := cstrAt_cons_self σ σ.fresh (hello ++ nullText) (fresh_ne_NULL σ) (by decide)
      σ.oracle.tail (σ.trace ++ [.alloc σ.fresh ((hello ++ nullText).length + 1)])
    simpa [hello, nullText] using this
  | false =>
    refine ⟨_, _, generate_message_refused σ NULL nullText (strArg_NULL σ) ha, by simp, ?_⟩
    simp [State.cstrAt]

/-- C7: in a run of `main` whose allocation is granted, the trace is exactly:
the allocation of the block `r` that `generate_message` returns (13
characters), the `printf` of `r`, the `free` of `r`.  So one allocation is
made, it is released once and after it is printed, the tracking harness
accepts the trace with nothing left owned, and at exit no heap block is
live: memory is what it was at the start. -/
theorem main_allocation_trace (argc : Int) (argv : List (List Char)) (rest : List Bool) :
    ∃ r σ₁ σ', generate_message (boot (true :: rest)) worldLit = .ok (r, σ₁) ∧
      main argc argv (boot (true :: rest)) = .ok (EXIT_SUCCESS, σ') ∧
      σ'.trace = [.alloc r 13, .printf [r], .free r] ∧
      allocated σ'.trace = [r] ∧
      σ'.trace.count (.free r) = 1 ∧
      replay [] [] σ'.trace = some [] ∧
      σ'.liveHeap = [] ∧
      σ'.mem = (boot (true :: rest)).mem :=
  ⟨2, _, _, rfl, rfl, rfl, rfl, rfl, rfl, rfl, rfl⟩

/-- C8: for every valid input, a call of `generate_message` leaves standard
output alone, leaves every block other than the returned one as it was (the
input is still readable, with the same content), and adds one trace entry,
which is not a `free`.  Either it returns `NULL` and memory is unchanged,
or the returned pointer is non-null, differs from the input pointer and
from the address of every block that existed before the call, and memory
is the old memory plus the one new heap block at that address. -/
theorem generate_message_frame (σ : State) (name : Ptr) (s : List Char)
    (hs : σ.cstrAt name = some s) :
    ∃ r σ', generate_message σ name = .ok (r, σ') ∧
      σ'.out = σ.out ∧
      σ'.cstrAt name = some s ∧
      (∀ p, p ≠ r → σ'.block? p = σ.block? p) ∧
      (∃ e, σ'.trace = σ.trace ++ [e] ∧ ∀ p, e ≠ .free p) ∧
      ((r = NULL ∧ σ'.mem = σ.mem) ∨
       (r ≠ NULL ∧ r ≠ name ∧ (∀ b ∈ σ.mem, b.addr ≠ r) ∧
          ∃ b, b.addr = r ∧ b.heap = true ∧ σ'.mem = b :: σ.mem)) := by
  have ht := strArg_of_cstrAt σ name s hs
  cases ha : σ.oracle.headD false with
  | true =>
    refine ⟨_, _, generate_message_granted σ name s ht ha, rfl, ?_, ?_, ⟨_, rfl, ?_⟩, Or.inr
      ⟨fresh_ne_NULL σ, (cstrAt_ne_fresh σ name s hs).symm, ?_, ⟨_, rfl, rfl, rfl⟩⟩⟩
    · rw [cstrAt_cons_other σ σ.fresh name _ (cstrAt_ne_fresh σ name s hs)]
      exact hs
    · intro p hp
      have hpq : (σ.fresh == p) = false := by simpa using fun e => hp e.symm
      simp [State.block?, List.find?, hpq]
    · intro p; simp
    · intro b hb
      exact Nat.ne_of_lt (addr_lt_fresh σ b hb)
  | false =>
    refine ⟨_, _, generate_message_refused σ name s ht ha, rfl, hs, ?_, ⟨_, rfl, ?_⟩,
      Or.inl ⟨rfl, rfl⟩⟩
    · intro p _; rfl
    · intro p; simp

/-- C8 at the start state of the program with a granting allocator. -/
theorem generate_message_frame_witness :
    (boot [true]).cstrAt worldLit = some world ∧
    ∃ r σ', generate_message (boot [true]) worldLit = .ok (r, σ') ∧
      σ'.out = (boot [true]).out ∧
      σ'.cstrAt worldLit = some world ∧
      (∀ p, p ≠ r → σ'.block? p = (boot [true]).block? p) ∧
      (∃ e, σ'.trace = (boot [true]).trace ++ [e] ∧ ∀ p, e ≠ .free p) ∧
      ((r = NULL ∧ σ'.mem = (boot [true]).mem) ∨
       (r ≠ NULL ∧ r ≠ worldLit ∧ (∀ b ∈ (boot [true]).mem, b.addr ≠ r) ∧
          ∃ b, b.addr = r ∧ b.heap = true ∧ σ'.mem = b :: (boot [true]).mem)) :=
  ⟨rfl, generate_message_frame (boot [true]) worldLit world rfl⟩

/-- C9, as stated, fails on the path where the allocation is refused:
`main` does not get as far as `free` and does not return `EXIT_SUCCESS`;
the run ends in the fault of the `printf` call on `NULL`. -/
theorem main_unchecked_result_counterexample :
    main 0 [] (boot [false]) = .error (.badPointer NULL) ∧
    ¬ ∃ σ', main 0 [] (boot [false]) = .ok (EXIT_SUCCESS, σ') :=
  ⟨rfl, fun ⟨_, h⟩ => by cases h⟩

/-- C9, amended: whatever the allocator answers, `main` does not test the
pointer `r` that `generate_message` returned before it passes it to
`printf`.  When the allocation was granted, `r` is non-null, the trace of
the run is the trace of that call followed by the `printf` of `r` and the
`free` of `r`, and `main` returns `EXIT_SUCCESS`, which is `0`.  When it
was refused, `r` is `NULL`, the `printf` call on it faults and the run ends
there, before `free` and `return`.  From no state at all does `main` return
a code other than `0`. -/
theorem main_unchecked_result (argc : Int) (argv : List (List Char)) (oracle : List Bool) :
    (∃ r σ₁, generate_message (boot oracle) worldLit = .ok (r, σ₁) ∧
      if oracle.headD false then
        r = 2 ∧ r ≠ NULL ∧
        ∃ σ', main argc argv (boot oracle) = .ok (EXIT_SUCCESS, σ') ∧
          σ'.trace = σ₁.trace ++ [.printf [r], .free r]
      else
        r = NULL ∧ printf σ₁ lineFmt [r] = .error (.badPointer NULL) ∧
        main argc argv (boot oracle) = .error (.badPointer NULL)) ∧
    EXIT_SUCCESS = 0 ∧
    ∀ σ code σ', main argc argv σ = .ok (code, σ') → code = 0 := by
  refine ⟨?_, rfl, fun σ code σ' h => main_code argc argv σ σ' code h⟩
  match oracle with
  | [] => exact ⟨_, _, rfl, rfl, rfl, rfl⟩
  | false :: rest => exact ⟨_, _, rfl, rfl, rfl, rfl⟩
  | true :: rest => exact ⟨_, _, rfl, rfl, fresh_ne_NULL _, _, rfl, rfl⟩

/-- C10: for valid inputs `s₁` and `s₂` and granted allocations, the message
for `s₁` has length `s₁.length + 7`, dropping its first 7 characters gives
`s₁` back, and equal messages come from equal inputs. -/
theorem generate_message_recoverable (σ₁ σ₂ : State) (name₁ name₂ : Ptr) (s₁ s₂ : List Char)
    (h₁ : σ₁.cstrAt name₁ = some s₁) (h₂ : σ₂.cstrAt name₂ = some s₂)
    (a₁ : σ₁.oracle.headD false = true) (a₂ : σ₂.oracle.headD false = true) :
    ∃ t₁ t₂, message? σ₁ name₁ = some t₁ ∧ message? σ₂ name₂ = some t₂ ∧
      t₁.length = s₁.length + 7 ∧ t₁.drop 7 = s₁ ∧ (t₁ = t₂ → s₁ = s₂) := by
  refine ⟨_, _, message?_granted σ₁ name₁ s₁ h₁ a₁, message?_granted σ₂ name₂ s₂ h₂ a₂,
    ?_, ?_, ?_⟩
  · simp [hello_eq]
  · simp [hello_eq]
  · intro h
    exact List.append_cancel_left h

/-- C10 at the inputs `"world"` and `""`. -/
theorem generate_message_recoverable_witness :
    (boot [true]).cstrAt worldLit = some world ∧
    (litState [] [true]).cstrAt worldLit = some [] ∧
    ∃ t₁ t₂, message? (boot [true]) worldLit = some t₁ ∧
      message? (litState [] [true]) worldLit = some t₂ ∧
      t₁.length = world.length + 7 ∧ t₁.drop 7 = world ∧ (t₁ = t₂ → world = []) :=
  ⟨rfl, rfl,
    generate_message_recoverable (boot [true]) (litState [] [true]) worldLit worldLit world []
      rfl rfl rfl rfl⟩

end HelloC
